import Mathlib

/-!
# Verification of the xbps planning core (repository pool + transaction builder)

Shallow embedding of `src/lib/transaction_dictionary.c` and
`src/lib/repository_pool.c`.  C `prop_dictionary_t` objects are modelled as
string-keyed association lists, `uint64_t`/`uint32_t` arithmetic is `Nat`
arithmetic taken modulo `2^64`/`2^32`, and the external collaborators invoked
by the pipeline (dependency resolver, conflict detector, fetcher, statvfs, …)
are oracle parameters threaded through the embedded functions.
-/

/-! ## Machine integers and errno codes -/

/-- 2^64, the modulus of `uint64_t` arithmetic. -/
def U64 : Nat := 18446744073709551616

/-- 2^32, the modulus of `uint32_t` arithmetic. -/
def U32 : Nat := 4294967296

/-- `uint64_t` addition. -/
def u64add (a b : Nat) : Nat := (a + b) % U64

/-- `uint64_t` subtraction (wraps on underflow). -/
def u64sub (a b : Nat) : Nat := (a % U64 + (U64 - b % U64)) % U64

/-- `uint64_t` multiplication. -/
def u64mul (a b : Nat) : Nat := (a * b) % U64

/-- `uint32_t` addition. -/
def u32add (a b : Nat) : Nat := (a + b) % U32

/- Linux errno values used by the two source files. -/
def ENXIO : Nat := 6
def EAGAIN : Nat := 11
def ENOMEM : Nat := 12
def ENODEV : Nat := 19
def EINVAL : Nat := 22
def ENOSPC : Nat := 28
def ENOTSUP : Nat := 95

/-! ## Data model: transaction entries and `prop_dictionary_t` -/

/-- One package dictionary inside the `unsorted_deps`/`packages` arrays:
the keys read and written by `compute_transaction_stats`. -/
structure TxEntry where
  pkgver : String
  transaction : String
  repository : String
  preserve : Bool
  installed_size : Nat
  filename_size : Nat
  download : Bool
deriving DecidableEq

/-- A value stored in the transaction dictionary: an array of package
dictionaries, an array of descriptor strings (missing deps / conflicts),
or a numeric stats field. -/
inductive XObject where
  | array (es : List TxEntry)
  | strArray (ss : List String)
  | u64 (n : Nat)
  | u32 (n : Nat)
deriving DecidableEq

/-- A `prop_dictionary_t`: a string-keyed association list. -/
abbrev XDict := List (String × XObject)

/-- `prop_dictionary_get`. -/
def dict_get (d : XDict) (k : String) : Option XObject :=
  match d with
  | [] => none
  | (k₀, v) :: rest => if k₀ = k then some v else dict_get rest k

/-- `prop_dictionary_set` (replaces in place, appends if absent). -/
def dict_set (d : XDict) (k : String) (v : XObject) : XDict :=
  match d with
  | [] => [(k, v)]
  | (k₀, v₀) :: rest => if k₀ = k then (k, v) :: rest else (k₀, v₀) :: dict_set rest k v

/-- `prop_dictionary_remove` (no-op when the key is absent). -/
def dict_remove (d : XDict) (k : String) : XDict :=
  match d with
  | [] => []
  | (k₀, v₀) :: rest => if k₀ = k then dict_remove rest k else (k₀, v₀) :: dict_remove rest k

/-- `xbps_array_count` applied to `dict_get d k`: proplib returns 0 for a
NULL or non-array object. -/
def tx_count (d : XDict) (k : String) : Nat :=
  match dict_get d k with
  | some (XObject.array es) => es.length
  | some (XObject.strArray ss) => ss.length
  | _ => 0

/-- `xbps_array_get` on the package array stored under key `k`. -/
def tx_get_entry (d : XDict) (k : String) (i : Nat) : Option TxEntry :=
  match dict_get d k with
  | some (XObject.array es) => es[i]?
  | _ => none

/-! ## `compute_transaction_stats` (transaction_dictionary.c lines 56-186) -/

/-- External collaborators of `compute_transaction_stats`:
`xbps_repository_is_remote`, `xbps_binpkg_exists`, `xbps_pkg_name`,
`xbps_pkgdb_get_pkg_metadata` (returning the metadata dictionary's
`installed_size`, or `none` when there is no metadata), and the
`statvfs` call on the root directory (`some (f_bavail, f_bsize)` on
success, `none` on failure). -/
structure StatsEnv where
  is_remote : String → Bool
  binpkg_exists : TxEntry → Bool
  pkg_name : String → String
  pkg_metadata : String → Option Nat
  statvfs : Option (Nat × Nat)

/-- Loop state of the stats pass: the five `uint32_t` counters, the three
`uint64_t` size accumulators, and the package entries already visited
(whose `download` key may have been set in place). -/
structure StatsAcc where
  inst_pkgcnt : Nat
  up_pkgcnt : Nat
  cf_pkgcnt : Nat
  rm_pkgcnt : Nat
  dl_pkgcnt : Nat
  dlsize : Nat
  instsize : Nat
  rmsize : Nat
  pkgs : List TxEntry
deriving DecidableEq

/-- All-zero initial state of the stats loop. -/
def statsAcc0 : StatsAcc :=
  { inst_pkgcnt := 0, up_pkgcnt := 0, cf_pkgcnt := 0, rm_pkgcnt := 0,
    dl_pkgcnt := 0, dlsize := 0, instsize := 0, rmsize := 0, pkgs := [] }

/-- One iteration of the `while` loop of `compute_transaction_stats`
(lines 74-132): counters, install/update size and download accounting,
and the remove/update removed-size lookup. -/
def stats_step (env : StatsEnv) (acc : StatsAcc) (e : TxEntry) : StatsAcc :=
  if e.transaction = "configure" then
    { acc with cf_pkgcnt := u32add acc.cf_pkgcnt 1, pkgs := acc.pkgs ++ [e] }
  else
    let acc₁ :=
      if e.transaction = "install" then
        { acc with inst_pkgcnt := u32add acc.inst_pkgcnt 1 }
      else if e.transaction = "update" then
        { acc with up_pkgcnt := u32add acc.up_pkgcnt 1 }
      else if e.transaction = "remove" then
        { acc with rm_pkgcnt := u32add acc.rm_pkgcnt 1 }
      else acc
    let step₂ :=
      if e.transaction = "install" ∨ e.transaction = "update" then
        let acc₂ := { acc₁ with instsize := u64add acc₁.instsize e.installed_size }
        if env.is_remote e.repository && !env.binpkg_exists e then
          -- signature file: 512 bytes
          let tsize := u64add e.filename_size 512
          ({ acc₂ with dlsize := u64add acc₂.dlsize tsize,
                       instsize := u64add acc₂.instsize tsize,
                       dl_pkgcnt := u32add acc₂.dl_pkgcnt 1 },
           { e with download := true })
        else (acc₂, e)
      else (acc₁, e)
    let acc₃ :=
      if e.transaction = "remove" ∨ (e.transaction = "update" ∧ e.preserve = false) then
        match env.pkg_metadata (env.pkg_name e.pkgver) with
        | none => step₂.1
        | some isize => { step₂.1 with rmsize := u64add step₂.1.rmsize isize }
      else step₂.1
    { acc₃ with pkgs := acc₃.pkgs ++ [step₂.2] }

/-- The netting of the install/remove size totals
(transaction_dictionary.c lines 135-143). -/
def net_sizes (instsize rmsize : Nat) : Nat × Nat :=
  if instsize > rmsize then (instsize - rmsize, 0)
  else if rmsize > instsize then (0, rmsize - instsize)
  else (0, 0)

/-- `compute_transaction_stats` (lines 56-186): iterate the `packages`
array accumulating counters and sizes, net the totals, record all stats
fields, then query `statvfs` and gate on disk space.  Returns the C `int`
result together with the mutated transaction dictionary. -/
def compute_transaction_stats (env : StatsEnv) (transd : XDict) : Nat × XDict :=
  match dict_get transd "packages" with
  | some (XObject.array pkglist) =>
    let acc := pkglist.foldl (stats_step env) statsAcc0
    let sizes := net_sizes acc.instsize acc.rmsize
    let instsize := sizes.1
    let rmsize := sizes.2
    let d := dict_set transd "packages" (XObject.array acc.pkgs)
    let d := dict_set d "total-install-pkgs" (XObject.u32 acc.inst_pkgcnt)
    let d := dict_set d "total-update-pkgs" (XObject.u32 acc.up_pkgcnt)
    let d := dict_set d "total-configure-pkgs" (XObject.u32 acc.cf_pkgcnt)
    let d := dict_set d "total-remove-pkgs" (XObject.u32 acc.rm_pkgcnt)
    let d := dict_set d "total-download-pkgs" (XObject.u32 acc.dl_pkgcnt)
    let d := dict_set d "total-installed-size" (XObject.u64 instsize)
    let d := dict_set d "total-download-size" (XObject.u64 acc.dlsize)
    let d := dict_set d "total-removed-size" (XObject.u64 rmsize)
    match env.statvfs with
    | none => (0, d)
    | some fs =>
      let rootdir_free_size := u64sub (u64mul fs.1 fs.2) instsize
      let d := dict_set d "disk-free-size" (XObject.u64 rootdir_free_size)
      if instsize > rootdir_free_size then (ENOSPC, d) else (0, d)
  | _ => (EINVAL, transd)

/-! ## Handle, transaction dictionary lifecycle -/

/-- The transaction dictionary together with its proplib immutability flag
(`xbps_dictionary_make_immutable`). -/
structure TransD where
  d : XDict
  immut : Bool
deriving DecidableEq

/-- One registered repository of the pool: the dictionary built in
`xbps_rpool_init` holding the `uri` and the internalized `index` array. -/
structure PoolEntry where
  uri : String
  index : List String
deriving DecidableEq

/-- `struct xbps_handle`: the fields used by the two source files —
the configuration's repository list (`cfg`, `none` when no configuration
is present), the repository pool array, and the transaction dictionary. -/
structure XbpsHandle where
  cfg : Option (List String)
  repo_pool : Option (List PoolEntry)
  transd : Option TransD
deriving DecidableEq

/-- Outcomes of the four allocations (`xbps_dictionary_create` plus three
`xbps_array_create`) and the three `xbps_dictionary_set` attachments
performed by `xbps_transaction_init`. -/
structure InitEnv where
  transd_create_ok : Bool
  unsorted_array_ok : Bool
  unsorted_set_ok : Bool
  missing_array_ok : Bool
  missing_set_ok : Bool
  conflicts_array_ok : Bool
  conflicts_set_ok : Bool

/-- `xbps_transaction_init` (transaction_dictionary.c lines 188-236):
no-op success when a plan already exists; otherwise create the dictionary
and attach the three empty working arrays, releasing the dictionary and
nulling the handle's reference on every failure path. -/
def xbps_transaction_init (env : InitEnv) (h : XbpsHandle) : Nat × XbpsHandle :=
  match h.transd with
  | some _ => (0, h)
  | none =>
    if !env.transd_create_ok then (ENOMEM, h)
    else if !env.unsorted_array_ok then (ENOMEM, { h with transd := none })
    else if !env.unsorted_set_ok then (EINVAL, { h with transd := none })
    else
      let d₁ := dict_set [] "unsorted_deps" (XObject.array [])
      if !env.missing_array_ok then (ENOMEM, { h with transd := none })
      else if !env.missing_set_ok then (EINVAL, { h with transd := none })
      else
        let d₂ := dict_set d₁ "missing_deps" (XObject.strArray [])
        if !env.conflicts_array_ok then (ENOMEM, { h with transd := none })
        else if !env.conflicts_set_ok then (EINVAL, { h with transd := none })
        else
          let d₃ := dict_set d₂ "conflicts" (XObject.strArray [])
          (0, { h with transd := some ⟨d₃, false⟩ })

/-! ## `xbps_transaction_prepare` (transaction_dictionary.c lines 238-312) -/

/-- The external phase collaborators invoked by `xbps_transaction_prepare`,
each acting on the transaction dictionary:
`xbps_repository_find_deps` (may append to `unsorted_deps` and
`missing_deps`, returns an `int`), `xbps_transaction_revdeps` (void),
`xbps_pkg_find_conflicts` (result unused, may append to `conflicts`),
`xbps_transaction_package_replace` (returns an `int`),
`xbps_transaction_shlibs` (returns a `bool`, true on unresolved shlibs),
`xbps_transaction_sort` (returns an `int`), and the stats collaborators. -/
structure PrepareEnv where
  find_deps : XDict → TxEntry → Nat × XDict
  revdeps : XDict → XDict
  find_conflicts : XDict → TxEntry → XDict
  package_replace : XDict → Nat × XDict
  shlibs : XDict → Bool
  sort : XDict → Nat × XDict
  stats_env : StatsEnv

/-- The first loop of `prepare` (lines 251-255): iterate `unsorted_deps`
by index while the array may grow, calling `xbps_repository_find_deps`
on each entry and returning its error immediately when nonzero.  `fuel`
bounds the number of iterations (the C loop's termination depends on the
resolver); `none` means the fuel ran out. -/
def find_deps_loop (env : PrepareEnv) (fuel i : Nat) (d : XDict) :
    Option (Nat × XDict) :=
  match fuel with
  | 0 => none
  | fuel + 1 =>
    if i < tx_count d "unsorted_deps" then
      match tx_get_entry d "unsorted_deps" i with
      | some e =>
        let r := env.find_deps d e
        if r.1 ≠ 0 then some (r.1, r.2) else find_deps_loop env fuel (i + 1) r.2
      | none => find_deps_loop env fuel (i + 1) d
    else some (0, d)

/-- The second loop of `prepare` (lines 264-266): call
`xbps_pkg_find_conflicts` on every entry of `unsorted_deps`, ignoring
its result. -/
def find_conflicts_loop (env : PrepareEnv) (fuel i : Nat) (d : XDict) :
    Option XDict :=
  match fuel with
  | 0 => none
  | fuel + 1 =>
    if i < tx_count d "unsorted_deps" then
      match tx_get_entry d "unsorted_deps" i with
      | some e => find_conflicts_loop env fuel (i + 1) (env.find_conflicts d e)
      | none => find_conflicts_loop env fuel (i + 1) d
    else some d

/-- `xbps_transaction_prepare` (lines 238-312): resolve dependencies,
bail out on missing deps (ENODEV) or conflicts (EAGAIN), run replacement
resolution, shlib checking, sorting and stats (releasing the plan on
replacement/sort/stats failure), then drop the working keys and freeze
the dictionary.  `none` means an unbounded resolver loop exceeded `fuel`. -/
def xbps_transaction_prepare (env : PrepareEnv) (fuel : Nat) (h : XbpsHandle) :
    Option (Nat × XbpsHandle) :=
  match h.transd with
  | none => some ( ENXIO, h)
  | some td =>
    match find_deps_loop env fuel 0 td.d with
    | none => none
    | some (rv, d) =>
      if rv ≠ 0 then some (rv, { h with transd := some { td with d := d } })
      else
        let d := env.revdeps d
        if tx_count d "missing_deps" ≠ 0 then
          some (ENODEV, { h with transd := some { td with d := d } })
        else
          match find_conflicts_loop env fuel 0 d with
          | none => none
          | some d =>
            if tx_count d "conflicts" ≠ 0 then
              some (EAGAIN, { h with transd := some { td with d := d } })
            else
              let r := env.package_replace d
              if r.1 ≠ 0 then some (r.1, { h with transd := none })
              else if env.shlibs r.2 then
                some (ENODEV, { h with transd := some { td with d := r.2 } })
              else
                let s := env.sort r.2
                if s.1 ≠ 0 then some (s.1, { h with transd := none })
                else
                  let st := compute_transaction_stats env.stats_env s.2
                  if st.1 ≠ 0 then some (st.1, { h with transd := none })
                  else
                    let d := dict_remove st.2 "unsorted"
                    let d := dict_remove d "missing_deps"
                    let d := dict_remove d "conflicts"
                    some (0, { h with transd := some { d := d, immut := true } })

/-! ## Repository pool (repository_pool.c) -/

/-- External collaborators of `xbps_rpool_init`:
`xbps_pkg_index_plist` (builds the plist path for a repository URI,
`none` on failure with `plist_errno` as the captured `errno`) and
`prop_array_internalize_from_zfile` (`none` when the index file cannot
be internalized). -/
structure RpoolEnv where
  pkg_index_plist : String → Option String
  plist_errno : Nat
  internalize : String → Option (List String)

/-- Whether a configured repository URI yields a parsable index:
its plist path is obtained and the file internalizes. -/
def repo_parses (env : RpoolEnv) (r : String) : Bool :=
  match env.pkg_index_plist r with
  | some p => (env.internalize p).isSome
  | none => false

/-- The registration loop of `xbps_rpool_init` (lines 61-106): a failure
to build the plist path aborts with the captured errno; a failure to
internalize skips the repository and counts it missing; otherwise the
repository dictionary is appended to the pool array. -/
def rpool_init_loop (env : RpoolEnv) (repos : List String)
    (pool : List PoolEntry) (nmissing : Nat) :
    Except Nat (List PoolEntry × Nat) :=
  match repos with
  | [] => Except.ok (pool, nmissing)
  | repouri :: rest =>
    match env.pkg_index_plist repouri with
    | none => Except.error env.plist_errno
    | some plist =>
      match env.internalize plist with
      | none => rpool_init_loop env rest pool (nmissing + 1)
      | some idx =>
        rpool_init_loop env rest (pool ++ [{ uri := repouri, index := idx }]) nmissing

/-- `xbps_rpool_init` (lines 42-121): no-op success when already
initialized; ENOTSUP without configuration; otherwise register each
configured repository, skipping unparsable ones, fail with ENOTSUP
when every repository is missing, and release the pool (nulling the
handle's reference) on every failing path. -/
def xbps_rpool_init (env : RpoolEnv) (h : XbpsHandle) : Nat × XbpsHandle :=
  if h.repo_pool.isSome then (0, h)
  else
    match h.cfg with
    | none => (ENOTSUP, h)
    | some repos =>
      match rpool_init_loop env repos [] 0 with
      | Except.error rv => (rv, { h with repo_pool := none })
      | Except.ok res =>
        if repos.length - res.2 = 0 then (ENOTSUP, { h with repo_pool := none })
        else (0, { h with repo_pool := some res.1 })

/-- External collaborators of `xbps_rpool_sync`: the result of
`xbps_repository_sync_pkg_index` for the package index and for the files
index of a repository URI — `none` on success, `some e` on failure where
`e` is the captured error code (`fetchLastErrCode` or `errno`). -/
structure SyncEnv where
  sync_pkg : String → Option Nat
  sync_files : String → Option Nat

/-- The error a single repository contributes in `xbps_rpool_sync`: the
package-index fetch error when that fetch fails, otherwise the files-index
fetch error; `none` when both fetches succeed. -/
def repo_err (env : SyncEnv) (r : String) : Option Nat :=
  match env.sync_pkg r with
  | some e => some e
  | none => env.sync_files r

/-- The loop of `xbps_rpool_sync` (lines 157-183): skip repositories not
matching a given URI, fetch the package index then the files index,
recording each failure's code in `rv` and continuing with the next
repository. -/
def rpool_sync_loop (env : SyncEnv) (repos : List String) (uri : Option String)
    (rv : Nat) : Nat :=
  match repos with
  | [] => rv
  | repouri :: rest =>
    if (match uri with | some u => repouri != u | none => false) then
      rpool_sync_loop env rest uri rv
    else
      match env.sync_pkg repouri with
      | some e => rpool_sync_loop env rest uri e
      | none =>
        match env.sync_files repouri with
        | some e => rpool_sync_loop env rest uri e
        | none => rpool_sync_loop env rest uri rv

/-- `xbps_rpool_sync` (lines 146-185): ENOTSUP without configuration,
otherwise run the best-effort loop over all configured repositories
(or just the named one) and return the last recorded error, 0 if none. -/
def xbps_rpool_sync (env : SyncEnv) (h : XbpsHandle) (uri : Option String) : Nat :=
  match h.cfg with
  | none => ENOTSUP
  | some repos => rpool_sync_loop env repos uri 0

/-- The iteration loop of `xbps_rpool_foreach` (lines 209-216): call the
callback on each registered repository with the caller's mutable state
(the C `void *arg`); the callback returns its `int` result, the `done`
stop flag, and the updated state.  Break as soon as the result is nonzero
or the stop flag is set, returning the last callback result. -/
def rpool_foreach_loop {σ : Type} (fn : PoolEntry → σ → Nat × Bool × σ)
    (pool : List PoolEntry) (s : σ) : Nat × σ :=
  match pool with
  | [] => (0, s)
  | entry :: rest =>
    let r := fn entry s
    if r.1 ≠ 0 ∨ r.2.1 = true then (r.1, r.2.2)
    else rpool_foreach_loop fn rest r.2.2

/-- `xbps_rpool_foreach` (lines 187-219): initialize the pool on demand,
returning the initialization error without iterating when it fails;
otherwise iterate the pool entries in configured order with early stop.
A NULL pool iterates zero times (`prop_array_count(NULL)` is 0). -/
def xbps_rpool_foreach {σ : Type} (env : RpoolEnv)
    (fn : PoolEntry → σ → Nat × Bool × σ) (h : XbpsHandle) (s : σ) :
    Nat × XbpsHandle × σ :=
  let r := xbps_rpool_init env h
  if r.1 ≠ 0 then (r.1, r.2, s)
  else
    match r.2.repo_pool with
    | none => (0, r.2, s)
    | some pool =>
      let res := rpool_foreach_loop fn pool s
      (res.1, r.2, res.2)


/-! ## Concrete inputs used by witnesses and counterexamples -/

/-- Stats collaborators with no remote repositories, no cached binaries,
no installed metadata, and a configurable statvfs result. -/
def plainStats (fs : Option (Nat × Nat)) : StatsEnv :=
  { is_remote := fun _ => false, binpkg_exists := fun _ => false,
    pkg_name := fun s => s, pkg_metadata := fun _ => none, statvfs := fs }

/-- A single install entry with declared installed size 600. -/
def spacePkg : TxEntry :=
  { pkgver := "foo-1.0", transaction := "install", repository := "/repo",
    preserve := false, installed_size := 600, filename_size := 0, download := false }

/-- A plan whose final package list is just `spacePkg`. -/
def spaceTransd : XDict := [("packages", XObject.array [spacePkg])]

/-! ## C2 — disk space gate -/

/-- C2 (code bug): the stats phase computes
`rootdir_free_size = f_bavail * f_bsize - instsize` in `uint64_t` and then
tests `instsize > rootdir_free_size`.  With free bytes = 500 and net install
size = 600 the subtraction wraps around, the recorded projected free space is
2^64 - 100, and the phase SUCCEEDS (rv = 0) although the claim requires the
out-of-space error; with free bytes = 700 it records projected free space 100
but FAILS with ENOSPC although the claim requires success.  Both spec
examples are inverted by the code. -/
theorem compute_transaction_stats_space_gate :
    (compute_transaction_stats (plainStats (some (500, 1))) spaceTransd).1 = 0 ∧
    dict_get (compute_transaction_stats (plainStats (some (500, 1))) spaceTransd).2
        "disk-free-size" = some (XObject.u64 (U64 - 100)) ∧
    (compute_transaction_stats (plainStats (some (700, 1))) spaceTransd).1 = ENOSPC ∧
    dict_get (compute_transaction_stats (plainStats (some (700, 1))) spaceTransd).2
        "disk-free-size" = some (XObject.u64 100) := by
  decide

/-! ## C3 — size netting -/

/-- C3: the netting step of `compute_transaction_stats` records
install-size − remove-size and 0 when installs dominate, 0 and
remove-size − install-size when removals dominate, and 0 and 0 when the
raw totals are equal. -/
theorem net_sizes_cases (a b : Nat) :
    (a > b → net_sizes a b = (a - b, 0)) ∧
    (b > a → net_sizes a b = (0, b - a)) ∧
    (a = b → net_sizes a b = (0, 0)) := by
  unfold net_sizes
  refine ⟨fun hab => ?_, fun hba => ?_, fun heq => ?_⟩
  · rw [if_pos hab]
  · rw [if_neg (by omega), if_pos hba]
  · rw [if_neg (by omega), if_neg (by omega)]

/-- Witness for C3 at the spec's example totals 1000/400, 400/1000 and
equal totals. -/
theorem net_sizes_cases_witness :
    net_sizes 1000 400 = (600, 0) ∧ net_sizes 400 1000 = (0, 600) ∧
    net_sizes 7 7 = (0, 0) :=
  ⟨(net_sizes_cases 1000 400).1 (by decide),
   (net_sizes_cases 400 1000).2.1 (by decide),
   (net_sizes_cases 7 7).2.2 rfl⟩

/-! ## C5 — download accounting -/

/-- C5: for an install or update entry of the final package list, if its
repository is remote and its binary is not cached, one stats iteration adds
remote file size + 512 to both the download-size and install-size totals
(the latter on top of the declared installed size), increments the download
count, and stores the entry with its download flag set; if the binary is
cached, the download total, download count and entry are unchanged. -/
theorem stats_step_download_accounting (env : StatsEnv) (acc : StatsAcc) (e : TxEntry)
    (htr : e.transaction = "install" ∨ e.transaction = "update") :
    (env.is_remote e.repository = true → env.binpkg_exists e = false →
      (stats_step env acc e).dlsize = u64add acc.dlsize (u64add e.filename_size 512) ∧
      (stats_step env acc e).instsize
        = u64add (u64add acc.instsize e.installed_size) (u64add e.filename_size 512) ∧
      (stats_step env acc e).dl_pkgcnt = u32add acc.dl_pkgcnt 1 ∧
      (stats_step env acc e).pkgs = acc.pkgs ++ [{ e with download := true }]) ∧
    (env.binpkg_exists e = true →
      (stats_step env acc e).dlsize = acc.dlsize ∧
      (stats_step env acc e).dl_pkgcnt = acc.dl_pkgcnt ∧
      (stats_step env acc e).pkgs = acc.pkgs ++ [e]) := by
  constructor
  · intro hr hb
    rcases htr with h | h <;>
      cases hm : env.pkg_metadata (env.pkg_name e.pkgver) <;>
        by_cases hp : e.preserve = false <;>
          simp [stats_step, h, hr, hb, hm, hp]
  · intro hb
    rcases htr with h | h <;>
      cases hm : env.pkg_metadata (env.pkg_name e.pkgver) <;>
        by_cases hp : e.preserve = false <;>
          simp [stats_step, h, hb, hm, hp]

/-- Stats collaborators for the download-accounting witness: one remote
repository, one cached pkgver. -/
def dlEnv : StatsEnv :=
  { is_remote := fun r => r == "https://repo",
    binpkg_exists := fun e => e.pkgver == "cached-1.0",
    pkg_name := fun s => s, pkg_metadata := fun _ => none, statvfs := none }

/-- A remote, not-locally-cached update entry with remote file size 2048. -/
def dlRemote : TxEntry :=
  { pkgver := "foo-1.0", transaction := "update", repository := "https://repo",
    preserve := true, installed_size := 100, filename_size := 2048, download := false }

/-- A locally cached update entry of the same kind. -/
def dlCached : TxEntry :=
  { pkgver := "cached-1.0", transaction := "update", repository := "https://repo",
    preserve := true, installed_size := 100, filename_size := 2048, download := false }

/-- Witness for C5: remote file size 2048 contributes 2048 + 512 = 2560 to
both totals and sets the download flag; the cached entry contributes 0. -/
theorem stats_step_download_accounting_witness :
    (stats_step dlEnv statsAcc0 dlRemote).dlsize = 2560 ∧
    (stats_step dlEnv statsAcc0 dlRemote).instsize = 2660 ∧
    (stats_step dlEnv statsAcc0 dlRemote).dl_pkgcnt = 1 ∧
    (stats_step dlEnv statsAcc0 dlRemote).pkgs = [{ dlRemote with download := true }] ∧
    (stats_step dlEnv statsAcc0 dlCached).dlsize = 0 ∧
    (stats_step dlEnv statsAcc0 dlCached).pkgs = [dlCached] := by
  have h₁ := stats_step_download_accounting dlEnv statsAcc0 dlRemote (Or.inr rfl)
  have h₂ := stats_step_download_accounting dlEnv statsAcc0 dlCached (Or.inr rfl)
  obtain ⟨ha, hb, hc, hd⟩ := h₁.1 (by decide) (by decide)
  obtain ⟨he, -, hf⟩ := h₂.2 (by decide)
  refine ⟨?_, ?_, ?_, ?_, ?_, ?_⟩
  · rw [ha]; decide
  · rw [hb]; decide
  · rw [hc]; decide
  · rw [hd]; rfl
  · rw [he]; rfl
  · rw [hf]; rfl

/-! ## C9 — idempotent transaction_init -/

/-- C9: when a transaction plan already exists in the handle,
`xbps_transaction_init` returns success immediately and leaves the handle
(and thus the existing working sequences) unchanged. -/
theorem transaction_init_idempotent (env : InitEnv) (h : XbpsHandle) (td : TransD)
    (htd : h.transd = some td) : xbps_transaction_init env h = (0, h) := by
  unfold xbps_transaction_init
  rw [htd]

/-- All seven allocation/attach events of `xbps_transaction_init` succeed. -/
def initEnvOK : InitEnv :=
  { transd_create_ok := true, unsorted_array_ok := true, unsorted_set_ok := true,
    missing_array_ok := true, missing_set_ok := true,
    conflicts_array_ok := true, conflicts_set_ok := true }

/-- A handle with no pool and no transaction dictionary. -/
def hEmpty : XbpsHandle := ⟨none, none, none⟩

/-- Witness for C9: the second of two consecutive `xbps_transaction_init`
calls is a no-op returning success. -/
theorem transaction_init_idempotent_witness :
    xbps_transaction_init initEnvOK (xbps_transaction_init initEnvOK hEmpty).2
      = (0, (xbps_transaction_init initEnvOK hEmpty).2) :=
  transaction_init_idempotent initEnvOK _
    ⟨[("unsorted_deps", XObject.array []), ("missing_deps", XObject.strArray []),
      ("conflicts", XObject.strArray [])], false⟩ rfl

/-! ## C10 — transaction_init error atomicity -/

/-- C10: whenever `xbps_transaction_init` returns a nonzero error (an
allocation or attach failure), the handle's transaction reference is left
null and the handle is exactly as it was before the call. -/
theorem transaction_init_error_atomic (env : InitEnv) (h : XbpsHandle)
    (herr : (xbps_transaction_init env h).1 ≠ 0) :
    (xbps_transaction_init env h).2.transd = none ∧
    (xbps_transaction_init env h).2 = h := by
  cases hh : h.transd with
  | some td =>
    exfalso
    apply herr
    unfold xbps_transaction_init
    rw [hh]
  | none =>
    have hhe : { h with transd := none } = h := by rw [← hh]
    unfold xbps_transaction_init at herr ⊢
    rw [hh] at herr ⊢
    by_cases h₁ : env.transd_create_ok <;> by_cases h₂ : env.unsorted_array_ok <;>
      by_cases h₃ : env.unsorted_set_ok <;> by_cases h₄ : env.missing_array_ok <;>
        by_cases h₅ : env.missing_set_ok <;> by_cases h₆ : env.conflicts_array_ok <;>
          by_cases h₇ : env.conflicts_set_ok <;>
            simp_all

/-- The second attach (`missing_deps` has not yet been reached; the
`unsorted_deps` dictionary_set) fails. -/
def initEnvBad : InitEnv :=
  { transd_create_ok := true, unsorted_array_ok := true, unsorted_set_ok := false,
    missing_array_ok := true, missing_set_ok := true,
    conflicts_array_ok := true, conflicts_set_ok := true }

/-- Witness for C10 at a failing attach: the handle is unchanged and the
transaction reference is null. -/
theorem transaction_init_error_atomic_witness :
    (xbps_transaction_init initEnvBad hEmpty).2.transd = none ∧
    (xbps_transaction_init initEnvBad hEmpty).2 = hEmpty :=
  transaction_init_error_atomic initEnvBad hEmpty (by decide)

/-! ## C1 — missing-dependency short-circuit -/

/-- A dependency resolver pass that finds nothing new and a
reverse-dependency pass that records one missing dependency. -/
def prepEnvMissing : PrepareEnv :=
  { find_deps := fun d _ => (0, d),
    revdeps := fun d => dict_set d "missing_deps" (XObject.strArray ["libmissing.so"]),
    find_conflicts := fun d _ => d,
    package_replace := fun d => (0, d),
    shlibs := fun _ => false,
    sort := fun d => (0, d),
    stats_env := plainStats none }

/-- One requested install operation populated by the caller. -/
def entryA : TxEntry :=
  { pkgver := "A-1.0", transaction := "install", repository := "https://repo",
    preserve := false, installed_size := 10, filename_size := 5, download := false }

/-- A transaction dictionary as left by `xbps_transaction_init` after the
caller queued `entryA`. -/
def transd0 : XDict :=
  [("unsorted_deps", XObject.array [entryA]),
   ("missing_deps", XObject.strArray []),
   ("conflicts", XObject.strArray [])]

/-- A handle holding that plan. -/
def hPlan : XbpsHandle := ⟨none, none, some ⟨transd0, false⟩⟩

/-- C1 counterexample: dependency resolution leaves `missing_deps` non-empty
after the reverse-dependency pass, and `xbps_transaction_prepare` returns
ENODEV — but the handle's plan reference is still set (`isSome = true`),
refuting the claim that the transaction plan is released and the plan
reference cleared on this path. -/
theorem transaction_prepare_missing_keeps_plan :
    (xbps_transaction_prepare prepEnvMissing 4 hPlan).map
        (fun r => (r.1, r.2.transd.isSome)) = some (ENODEV, true) := by
  decide

/-- C1 (amended): when the dependency loop completes successfully and the
reverse-dependency pass leaves `missing_deps` non-empty,
`xbps_transaction_prepare` fails with ENODEV and the plan is NOT released:
the handle keeps the mutated transaction dictionary (so the collected
`missing_deps` remain inspectable and no new `xbps_transaction_init` is
needed). -/
theorem transaction_prepare_missing_short_circuit (env : PrepareEnv) (fuel : Nat)
    (h : XbpsHandle) (td : TransD) (d : XDict)
    (htd : h.transd = some td)
    (hloop : find_deps_loop env fuel 0 td.d = some (0, d))
    (hmiss : tx_count (env.revdeps d) "missing_deps" ≠ 0) :
    xbps_transaction_prepare env fuel h
      = some (ENODEV, { h with transd := some { td with d := env.revdeps d } }) := by
  unfold xbps_transaction_prepare
  rw [htd]
  simp only [hloop]
  simp [hmiss]

/-- Witness for C1 (amended) at the concrete missing-dependency input. -/
theorem transaction_prepare_missing_short_circuit_witness :
    xbps_transaction_prepare prepEnvMissing 4 hPlan
      = some (ENODEV,
          ⟨none, none,
           some ⟨dict_set transd0 "missing_deps" (XObject.strArray ["libmissing.so"]),
                 false⟩⟩) := by
  have h := transaction_prepare_missing_short_circuit prepEnvMissing 4 hPlan
      ⟨transd0, false⟩ transd0 rfl (by decide) (by decide)
  rw [h]
  rfl

/-! ## C4 — freeze leaves unsorted_deps behind -/

/-- Modelled from the spec: `xbps_transaction_sort` (the TOPOSORT phase) is
not among these sources; per the spec it computes a dependency-respecting
total order over the working set and stores the final topologically sorted
sequence of Transaction Entries as the plan's `packages` (for a single-entry
working set, that entry alone).  The spec does not state that this phase
removes the `unsorted_deps` working sequence — per the spec that removal
belongs to the FREEZE step. -/
def sort_spec (d : XDict) : Nat × XDict :=
  match dict_get d "unsorted_deps" with
  | some (XObject.array es) => (0, dict_set d "packages" (XObject.array es))
  | _ => (EINVAL, d)

/-- Phase collaborators for a fully successful `prepare` run: nothing
missing, no conflicts, no replacements, shlibs satisfied, spec-modelled
sort, statvfs unavailable (space check skipped). -/
def prepEnvOK : PrepareEnv :=
  { find_deps := fun d _ => (0, d),
    revdeps := fun d => d,
    find_conflicts := fun d _ => d,
    package_replace := fun d => (0, d),
    shlibs := fun _ => false,
    sort := sort_spec,
    stats_env := plainStats none }

/-- C4: on a successful `xbps_transaction_prepare` the freeze step removes
the key "unsorted" — which never exists — instead of "unsorted_deps", so the
frozen immutable plan STILL contains the `unsorted_deps` working array while
`missing_deps` and `conflicts` are removed: the code contradicts the claim
(and the spec's FREEZE step) for the first of the three working sequences. -/
theorem transaction_prepare_freeze_keeps_unsorted_deps :
    (xbps_transaction_prepare prepEnvOK 4 hPlan).map
        (fun r => (r.1, r.2.transd.map (fun td =>
          ((dict_get td.d "unsorted_deps").isSome,
           (dict_get td.d "missing_deps").isSome,
           (dict_get td.d "conflicts").isSome,
           td.immut))))
      = some (0, some (true, false, false, true)) := by
  decide

/-! ## C6 — pool floor invariant -/

/-- Helper: the entries failing a Boolean predicate and those satisfying it
partition a list. -/
theorem countP_not_add {α : Type} (p : α → Bool) (l : List α) :
    List.countP (fun a => !p a) l + List.countP p l = l.length := by
  induction l with
  | nil => simp
  | cons a l ih =>
    by_cases hp : p a <;> simp [List.countP_cons, hp] <;> omega

/-- The registration loop of `xbps_rpool_init`, when every plist path is
obtained, completes with one registered entry per parsable repository and
one missing count per unparsable one. -/
theorem rpool_init_loop_total (env : RpoolEnv) :
    ∀ (repos : List String),
      (∀ r ∈ repos, (env.pkg_index_plist r).isSome = true) →
      ∀ (pool : List PoolEntry) (nm : Nat),
        ∃ pool' nm', rpool_init_loop env repos pool nm = Except.ok (pool', nm') ∧
          nm' = nm + repos.countP (fun r => !(repo_parses env r)) ∧
          pool'.length = pool.length + repos.countP (fun r => repo_parses env r) := by
  intro repos
  induction repos with
  | nil =>
    intro _ pool nm
    exact ⟨pool, nm, by simp [rpool_init_loop], by simp, by simp⟩
  | cons r rest ih =>
    intro hall pool nm
    have hr : (env.pkg_index_plist r).isSome = true := hall r (List.mem_cons_self r rest)
    obtain ⟨p, hp⟩ := Option.isSome_iff_exists.mp hr
    have hrest : ∀ x ∈ rest, (env.pkg_index_plist x).isSome = true :=
      fun x hx => hall x (List.mem_cons_of_mem r hx)
    cases hin : env.internalize p with
    | none =>
      have hpar : repo_parses env r = false := by simp [repo_parses, hp, hin]
      have hccm : List.countP (fun x => !(repo_parses env x)) (r :: rest)
          = List.countP (fun x => !(repo_parses env x)) rest + 1 := by
        simp [List.countP_cons, hpar]
      have hccp : List.countP (fun x => repo_parses env x) (r :: rest)
          = List.countP (fun x => repo_parses env x) rest := by
        simp [List.countP_cons, hpar]
      obtain ⟨pool', nm', h₁, h₂, h₃⟩ := ih hrest pool (nm + 1)
      refine ⟨pool', nm', ?_, by omega, by omega⟩
      simp only [rpool_init_loop, hp, hin]
      exact h₁
    | some idx =>
      have hpar : repo_parses env r = true := by simp [repo_parses, hp, hin]
      have hccm : List.countP (fun x => !(repo_parses env x)) (r :: rest)
          = List.countP (fun x => !(repo_parses env x)) rest := by
        simp [List.countP_cons, hpar]
      have hccp : List.countP (fun x => repo_parses env x) (r :: rest)
          = List.countP (fun x => repo_parses env x) rest + 1 := by
        simp [List.countP_cons, hpar]
      obtain ⟨pool', nm', h₁, h₂, h₃⟩ :=
        ih hrest (pool ++ [({ uri := r, index := idx } : PoolEntry)]) nm
      have hl : (pool ++ [({ uri := r, index := idx } : PoolEntry)]).length
          = pool.length + 1 := by simp
      refine ⟨pool', nm', ?_, by omega, by omega⟩
      simp only [rpool_init_loop, hp, hin]
      exact h₁

/-- C6: on a handle with no pool yet and a present configuration:
(a) when every plist path is obtainable (no allocation-class failure),
`xbps_rpool_init` succeeds iff at least one configured repository yields a
parsable index — unparsable repositories are skipped and only counted
missing — and any failure is the no-usable-repository error ENOTSUP;
(b) unconditionally, after any failing init the handle's pool reference is
null (never partially constructed). -/
theorem rpool_init_floor (env : RpoolEnv) (h : XbpsHandle) (repos : List String)
    (hpool : h.repo_pool = none) (hcfg : h.cfg = some repos) :
    ((∀ r ∈ repos, (env.pkg_index_plist r).isSome = true) →
      (((xbps_rpool_init env h).1 = 0 ↔ ∃ r ∈ repos, repo_parses env r = true) ∧
       ((xbps_rpool_init env h).1 ≠ 0 → (xbps_rpool_init env h).1 = ENOTSUP))) ∧
    ((xbps_rpool_init env h).1 ≠ 0 → (xbps_rpool_init env h).2.repo_pool = none) := by
  constructor
  · intro hall
    obtain ⟨pool', nm', hloop, hnm, hlen⟩ := rpool_init_loop_total env repos hall [] 0
    have hcnt := countP_not_add (fun r => repo_parses env r) repos
    simp only [xbps_rpool_init, hpool, hcfg, Option.isSome_none, Bool.false_eq_true,
      if_false, hloop]
    by_cases hc : repos.length - nm' = 0
    · have hzero : List.countP (fun r => repo_parses env r) repos = 0 := by omega
      have hnone : ¬ ∃ r ∈ repos, repo_parses env r = true := by
        rintro ⟨r, hmem, hpar⟩
        have hpos : 0 < List.countP (fun x => repo_parses env x) repos :=
          List.countP_pos_iff.mpr ⟨r, hmem, hpar⟩
        omega
      rw [if_pos hc]
      exact ⟨iff_of_false (by simp [ENOTSUP]) hnone, fun _ => rfl⟩
    · have hpos : 0 < List.countP (fun r => repo_parses env r) repos := by omega
      obtain ⟨r, hmem, hpar⟩ := List.countP_pos_iff.mp hpos
      rw [if_neg hc]
      exact ⟨iff_of_true rfl ⟨r, hmem, hpar⟩, fun hn => absurd rfl hn⟩
  · simp only [xbps_rpool_init, hpool, hcfg, Option.isSome_none, Bool.false_eq_true,
      if_false]
    cases hres : rpool_init_loop env repos [] 0 with
    | error rv => intro _; rfl
    | ok res =>
      dsimp only
      by_cases hc : repos.length - res.2 = 0
      · rw [if_pos hc]
        intro _
        rfl
      · rw [if_neg hc]
        intro hn
        exact absurd rfl hn

/-- Pool collaborators for the C6 witness: every plist path is obtained,
only repoB internalizes. -/
def rpoolEnvW : RpoolEnv :=
  { pkg_index_plist := fun r => some (r ++ "/index.plist"),
    plist_errno := 5,
    internalize := fun p => if p == "repoB/index.plist" then some ["pkg-1.0"] else none }

/-- A handle configured with two repositories and no pool yet. -/
def rpoolHW : XbpsHandle := ⟨some ["repoA", "repoB"], none, none⟩

/-- Witness for C6: one of the two configured repositories parses, so
initialization succeeds even though the other is missing. -/
theorem rpool_init_floor_witness :
    (xbps_rpool_init rpoolEnvW rpoolHW).1 = 0 :=
  (((rpool_init_floor rpoolEnvW rpoolHW ["repoA", "repoB"] rfl rfl).1
      (by decide)).1).mpr ⟨"repoB", by decide, by decide⟩

/-! ## C7 — sync is best-effort, last error wins -/

/-- The sync loop over all repositories (no URI filter) returns the last
per-repository error in configured order, or its incoming `rv` when no
repository fails: every repository is attempted. -/
theorem rpool_sync_loop_last_error (env : SyncEnv) :
    ∀ (repos : List String) (rv : Nat),
      rpool_sync_loop env repos none rv
        = (repos.filterMap (repo_err env)).getLastD rv := by
  intro repos
  induction repos with
  | nil => intro rv; simp [rpool_sync_loop]
  | cons r rest ih =>
    intro rv
    cases he : env.sync_pkg r with
    | some e =>
      have hre : repo_err env r = some e := by simp [repo_err, he]
      have hfm : List.filterMap (repo_err env) (r :: rest)
          = e :: List.filterMap (repo_err env) rest := by
        simp only [List.filterMap_cons, hre]
      rw [hfm, List.getLastD_cons]
      simp only [rpool_sync_loop, he]
      exact ih e
    | none =>
      cases hf : env.sync_files r with
      | some e =>
        have hre : repo_err env r = some e := by simp [repo_err, he, hf]
        have hfm : List.filterMap (repo_err env) (r :: rest)
            = e :: List.filterMap (repo_err env) rest := by
          simp only [List.filterMap_cons, hre]
        rw [hfm, List.getLastD_cons]
        simp only [rpool_sync_loop, he, hf]
        exact ih e
      | none =>
        have hre : repo_err env r = none := by simp [repo_err, he, hf]
        have hfm : List.filterMap (repo_err env) (r :: rest)
            = List.filterMap (repo_err env) rest := by
          simp only [List.filterMap_cons, hre]
        rw [hfm]
        simp only [rpool_sync_loop, he, hf]
        exact ih rv

/-- Helper: the last element (default `d`) of a list of nonzero error codes
is zero exactly when the list is empty and the default is zero. -/
theorem getLastD_zero_iff :
    ∀ (l : List Nat), (∀ e ∈ l, e ≠ 0) →
      ∀ d, (l.getLastD d = 0 ↔ l = [] ∧ d = 0) := by
  intro l
  induction l with
  | nil => intro _ d; simp
  | cons a l ih =>
    intro hnz d
    have ha : a ≠ 0 := hnz a (List.mem_cons_self a l)
    have hl : ∀ e ∈ l, e ≠ 0 := fun e he => hnz e (List.mem_cons_of_mem a he)
    rw [List.getLastD_cons, ih hl a]
    apply iff_of_false
    · rintro ⟨-, h0⟩
      exact ha h0
    · rintro ⟨hcons, -⟩
      exact List.cons_ne_nil a l hcons

/-- C7: with a configuration of repositories and no URI argument,
`xbps_rpool_sync` attempts every configured repository — its result is the
last per-repository fetch error over the whole configured list (0 when the
list of failures is empty) — and, when no failure can carry error code 0,
it returns success exactly when no repository failed. -/
theorem rpool_sync_best_effort (env : SyncEnv) (h : XbpsHandle) (repos : List String)
    (hcfg : h.cfg = some repos)
    (hnz : ∀ r ∈ repos, repo_err env r ≠ some 0) :
    xbps_rpool_sync env h none = (repos.filterMap (repo_err env)).getLastD 0 ∧
    (xbps_rpool_sync env h none = 0 ↔ repos.filterMap (repo_err env) = []) := by
  have hmain : xbps_rpool_sync env h none
      = (repos.filterMap (repo_err env)).getLastD 0 := by
    simp [xbps_rpool_sync, hcfg, rpool_sync_loop_last_error env repos 0]
  refine ⟨hmain, ?_⟩
  rw [hmain]
  have hnz' : ∀ e ∈ repos.filterMap (repo_err env), e ≠ 0 := by
    intro e he h0
    obtain ⟨r, hr, herr⟩ := List.mem_filterMap.mp he
    exact hnz r hr (h0 ▸ herr)
  rw [getLastD_zero_iff _ hnz' 0]
  simp

/-- Sync collaborators for the C7 witness: the package-index fetch of repoA
fails with code 7, the files-index fetch of repoC fails with code 9, all
other fetches succeed. -/
def syncEnvW : SyncEnv :=
  { sync_pkg := fun r => if r == "repoA" then some 7 else none,
    sync_files := fun r => if r == "repoC" then some 9 else none }

/-- A handle configured with three repositories. -/
def syncHW : XbpsHandle := ⟨some ["repoA", "repoB", "repoC"], none, none⟩

/-- Witness for C7: with failures on the first and third repositories the
loop still reaches the third one and returns its error code 9, the last
encountered error. -/
theorem rpool_sync_best_effort_witness :
    xbps_rpool_sync syncEnvW syncHW none = 9 ∧
    ¬ xbps_rpool_sync syncEnvW syncHW none = 0 := by
  have h := rpool_sync_best_effort syncEnvW syncHW ["repoA", "repoB", "repoC"]
    rfl (by decide)
  constructor
  · rw [h.1]; rfl
  · rw [h.1]; decide

/-! ## C8 — foreach early stop -/

/-- C8: `xbps_rpool_foreach` on an initialized pool visits entries in
configured order; when the callback leaves the stop flag unset and returns 0
on the first entry and then either sets the stop flag or returns a nonzero
code on the second, iteration stops after exactly those two calls — the
remaining entries are never visited — and the second callback's code (or
success) is returned along with the state built by the two calls. -/
theorem rpool_foreach_early_stop {σ : Type} (env : RpoolEnv)
    (fn : PoolEntry → σ → Nat × Bool × σ) (h : XbpsHandle)
    (e₁ e₂ : PoolEntry) (rest : List PoolEntry) (s₀ s₁ s₂ : σ) (rv₂ : Nat) (d₂ : Bool)
    (hpool : h.repo_pool = some (e₁ :: e₂ :: rest))
    (h₁ : fn e₁ s₀ = (0, false, s₁))
    (h₂ : fn e₂ s₁ = (rv₂, d₂, s₂))
    (hstop : rv₂ ≠ 0 ∨ d₂ = true) :
    xbps_rpool_foreach env fn h s₀ = (rv₂, h, s₂) := by
  have hinit : xbps_rpool_init env h = (0, h) := by
    simp [xbps_rpool_init, hpool]
  rcases hstop with hs | hs <;>
    simp [xbps_rpool_foreach, hinit, hpool, rpool_foreach_loop, h₁, h₂, hs]

/-- The pool visited by the C8 witness. -/
def poolW : List PoolEntry :=
  [⟨"r1", ["a-1.0"]⟩, ⟨"r2", ["b-1.0"]⟩, ⟨"r3", ["c-1.0"]⟩]

/-- A handle whose pool is already initialized with three repositories. -/
def foreachHW : XbpsHandle := ⟨some ["r1", "r2", "r3"], some poolW, none⟩

/-- The C8 witness callback: records each visited URI in its `arg` state and
sets the stop flag on the second visit. -/
def stopSecondCB (entry : PoolEntry) (visited : List String) :
    Nat × Bool × List String :=
  (0, visited.length == 1, visited ++ [entry.uri])

/-- Witness for C8: with 3 repositories and a callback that sets the stop
flag on the second entry, exactly 2 entries are visited (the recorded state
is the first two URIs) and success is returned. -/
theorem rpool_foreach_early_stop_witness :
    xbps_rpool_foreach rpoolEnvW stopSecondCB foreachHW ([] : List String)
      = (0, foreachHW, ["r1", "r2"]) :=
  rpool_foreach_early_stop rpoolEnvW stopSecondCB foreachHW
    ⟨"r1", ["a-1.0"]⟩ ⟨"r2", ["b-1.0"]⟩ [⟨"r3", ["c-1.0"]⟩]
    [] ["r1"] ["r1", "r2"] 0 true rfl rfl rfl (Or.inr rfl)
